import Mathlib

/-!
Shallow embedding of rsincr (src/rsincr.py), a wrapper around rsync that
performs filesystem-level differential backups using hardlinks.

The embedding models:
* the backup-type decision (main lines 31-37 and get_backup_type, lines 67-77);
* the rsync option assembly inside backup (lines 95-109);
* the per-job backup protocol (backup, lines 79-123) as a trace of external
  actions driven by an explicit world of subprocess outcomes;
* destination preparation (remote_mkdir, lines 125-145);
* the retention purge (purge / get_expired_backups, lines 147-190);
* the orchestration in main (lines 21-65): decision, lock file handling,
  atexit registration and the job loop.

Python dictionary access is modelled explicitly: a `.get(key, default)` access
becomes `Option.getD`, a bare `config[key]` access on a possibly-missing key
becomes a `match` whose missing branch is `Except.error "KeyError: ..."`.
Python truthiness of configuration values (`if bwlimit:` on a string,
`if additional_rsync_opts:` on a list, zero integers being falsy) is modelled
by the pyTruthy* helpers.  Subprocess calls (ssh, rsync) are external I/O: the
model records each invocation as an `Action` in a trace and reads its outcome
from an explicit world structure; a raised exception (CalledProcessError,
RsyncError, OSError) is an `Except.error` that propagates exactly as far as
the Python exception would.
-/

namespace Rsincr

/-- Python truthiness of a value that is either a string or absent/False:
`config['rsync'].get('bwlimit', False)` followed by `if bwlimit:`. -/
def pyTruthyStr : Option String → Bool
  | some s => s != ""
  | none => false

/-- Python truthiness of a value that is either a list or absent/False:
`config['rsync'].get('additional_rsync_opts', False)` followed by
`if additional_rsync_opts:`. -/
def pyTruthyList : Option (List String) → Bool
  | some l => !l.isEmpty
  | none => false

/-- Python truthiness of a value that is either an int or absent/False:
`config['schedule'].get('retention_days', False)` followed by `if ...:`.
In Python, 0 is falsy. -/
def pyTruthyInt : Option Int → Bool
  | some n => n != 0
  | none => false

/-- Model of `os.path.join(a, b)` for the two-argument POSIX case: an absolute second
component replaces the first; otherwise a separator is inserted unless the
first component is empty or already ends in one. -/
def pathJoin (a b : String) : String :=
  if b.data.head? = some '/' then b
  else if a = "" ∨ a.data.getLast? = some '/' then a ++ b
  else a ++ "/" ++ b

/-- The `[schedule]` section of the TOML configuration.  All three keys are
optional in the schema (rsincr.py lines 242-246). -/
structure Schedule where
  full_backup_week_days : Option (List Int)
  full_backup_month_days : Option (List Int)
  retention_days : Option Int
deriving Repr, DecidableEq

/-- One entry of the `[backup_jobs]` table (rsincr.py lines 247-254);
`compress` and `exclude` are optional keys. -/
structure BackupJob where
  source_dir : String
  dest_dir : String
  compress : Option Bool
  exclude : Option (List String)
deriving Repr, DecidableEq

/-- Model of `get_backup_type(config)` (rsincr.py lines 67-77).  The instant `now` is
injected as the two values the source reads from it:
`int(time.strftime('%w'))` (weekday, 0 = Sunday) and
`int(time.strftime('%d'))` (day of month).  The source subscripts
`config['schedule']` directly, so a configuration with no `schedule` section
raises `KeyError`; both day-set keys are read with `.get(key, [])`. -/
def get_backup_type (schedule : Option Schedule) (weekday monthday : Int) :
    Except String String :=
  match schedule with
  | none => .error "KeyError: schedule"
  | some sched =>
    if weekday ∈ sched.full_backup_week_days.getD [] ∨
        monthday ∈ sched.full_backup_month_days.getD [] then
      .ok "full"
    else
      .ok "incremental"

/-- The backup-type decision in `main` (rsincr.py lines 31-37): the
`--force-full-backup` command-line flag short-circuits to `'full'` without
calling `get_backup_type`; otherwise the schedule decides. -/
def decide_backup_type (force_full_backup : Bool) (schedule : Option Schedule)
    (weekday monthday : Int) : Except String String :=
  if force_full_backup then .ok "full"
  else get_backup_type schedule weekday monthday

/-- Assembly of the rsync option list in `backup` (rsincr.py lines 95-109).
The list starts as `['-a', '--delete', '--link-dest=../latest']` and is
extended by a sequence of conditional appends, in source order. -/
def rsync_options (bwlimit : Option String)
    (additional_rsync_opts : Option (List String)) (backup_job : BackupJob)
    (backup_type : String) : List String :=
  let opts := ["-a", "--delete", "--link-dest=" ++ pathJoin ".." "latest"]
  let opts := if pyTruthyStr bwlimit then
      opts ++ ["--bwlimit=" ++ bwlimit.getD ""] else opts
  let opts := if pyTruthyList additional_rsync_opts then
      opts ++ additional_rsync_opts.getD [] else opts
  let opts := if backup_type == "full" then opts ++ ["--checksum"] else opts
  let opts := if backup_job.compress.getD false then opts ++ ["-z"] else opts
  let opts := if pyTruthyList backup_job.exclude then
      opts ++ (backup_job.exclude.getD []).map (fun e => "--exclude=" ++ e)
    else opts
  opts

/-- A broken-down instant, as read by `time.strftime`. -/
structure DateTime where
  year : Nat
  month : Nat
  day : Nat
  hour : Nat
  minute : Nat
  second : Nat
deriving Repr, DecidableEq

/-- The ASCII character of a decimal digit. -/
def digitChar (d : Nat) : Char := Char.ofNat (48 + d)

/-- Width-2 zero-padded decimal rendering, as strftime produces for the
in-range values of %m, %d, %H, %M and %S. -/
def pad2 (n : Nat) : String :=
  String.mk [digitChar (n / 10 % 10), digitChar (n % 10)]

/-- Width-4 zero-padded decimal rendering, as strftime produces for the
in-range values of %Y. -/
def pad4 (n : Nat) : String :=
  String.mk [digitChar (n / 1000 % 10), digitChar (n / 100 % 10),
             digitChar (n / 10 % 10), digitChar (n % 10)]

/-- Model of `time.strftime("%Y%m%dT%H%M%S")` (rsincr.py line 84): the snapshot
identifier, with a literal charater T between the date and the time. -/
def snapshot_id (t : DateTime) : String :=
  pad4 t.year ++ pad2 t.month ++ pad2 t.day ++ "T" ++
    pad2 t.hour ++ pad2 t.minute ++ pad2 t.second

/-- Modelled from the spec (section 3, Snapshot): the identifier shape the
specification asserts, `YYYYMMDDhhmmss` — year, month, day, hour, minute and
second concatenated with no separator.  Kept separate from `snapshot_id`
(which follows the source) so the two renderings can be compared. -/
def spec_snapshot_id (t : DateTime) : String :=
  pad4 t.year ++ pad2 t.month ++ pad2 t.day ++
    pad2 t.hour ++ pad2 t.minute ++ pad2 t.second

/-- The value of a list of decimal digit characters, most significant first. -/
def digitsVal (cs : List Char) : Nat :=
  cs.foldl (fun acc c => 10 * acc + (c.toNat - 48)) 0

/-- Decoder for the snapshot identifier layout actually produced by the
source (`%Y%m%dT%H%M%S`): four year digits, two month digits, two day digits,
a literal T, then two digits each for hour, minute and second. -/
def parse_snapshot_id (s : String) : Option DateTime :=
  match s.data with
  | [y1, y2, y3, y4, mo1, mo2, d1, d2, t, h1, h2, mi1, mi2, se1, se2] =>
    if t = 'T' then
      some ⟨digitsVal [y1, y2, y3, y4], digitsVal [mo1, mo2], digitsVal [d1, d2],
            digitsVal [h1, h2], digitsVal [mi1, mi2], digitsVal [se1, se2]⟩
    else none
  | _ => none

/-- One externally visible step of the program: a subprocess invocation or one
of the bookkeeping events in `main`.  Every subprocess call site of rsincr.py
is represented by one constructor; the `main` events record the decision, the
`open(lockfile, 'w')` call (which truncates the file), the `fcntl.lockf`
attempt, the `atexit.register(remove_lockfile, ...)` call, the start of each
job, and the `os.remove(lockfile)` performed by the registered cleanup. -/
inductive Action where
  /-- Command `ssh server [[ -d dest_dir ]]` (rsincr.py line 130). -/
  | existsTest (dest_dir : String)
  /-- Command `ssh server mkdir -p dest_dir` (line 145). -/
  | mkdirP (dest_dir : String)
  /-- Call `sysrsync.run(...)` transferring the job source (lines 114-117). -/
  | transfer (options : List String) (destination : String)
  /-- Command `ssh server touch dest` (line 121). -/
  | touch (path : String)
  /-- Command `ssh server ln -sfn datetime dest_dir/latest` (lines 200-201). -/
  | link (datetime : String) (linkPath : String)
  /-- Command `ssh server find -H dest_dir ... -mtime +retention_days` (lines 179-183). -/
  | findExpired (dest_dir : String) (retention_days : Int)
  /-- Call `sysrsync.run(...)` mirroring an empty directory (lines 168-171). -/
  | purgeMirror (options : List String) (destination : String)
  /-- Command `ssh server rmdir expired_backup` (line 173). -/
  | rmdir (dir : String)
  /-- The backup-type decision in main (lines 31-37). -/
  | decideType
  /-- Call `open(lockfile, 'w')` (line 42); mode w truncates an existing file. -/
  | openLockTruncate (lockfile : String)
  /-- Call `fcntl.lockf(handle, LOCK_EX | LOCK_NB)` (line 44). -/
  | lockAttempt
  /-- Call `atexit.register(remove_lockfile, lockfile)` (line 50). -/
  | registerCleanup
  /-- Marker for `print(f'Starting backup job ...')` at the top of the loop (line 53). -/
  | jobStart (name : String)
  /-- Call `os.remove(lockfile)` in remove_lockfile (line 266), run at exit. -/
  | removeLock
deriving Repr, DecidableEq

/-- The outcome of the `[[ -d ... ]]` existence check subprocess
(`check=False, capture_output=True`, rsincr.py lines 130-131). -/
structure ExistsCheck where
  returncode : Int
  stdout : String
  stderr : String
deriving Repr, DecidableEq

/-- The outcomes of every subprocess a single `backup` call may run. -/
structure JobWorld where
  existsCheck : ExistsCheck
  mkdir_ok : Bool
  transfer_ok : Bool
  touch_ok : Bool
  link_ok : Bool
deriving Repr, DecidableEq

instance : Inhabited JobWorld :=
  ⟨{ existsCheck := ⟨0, "", ""⟩, mkdir_ok := true, transfer_ok := true,
     touch_ok := true, link_ok := true }⟩

/-- Model of `remote_mkdir(server, dest_dir)` (rsincr.py lines 125-145): the trace
of subprocess invocations plus the Python control-flow outcome.  A zero exit
from the existence test means the directory exists: nothing more is run.  A
non-zero exit with any stdout or stderr output raises
`Exception(...)` without creating anything; a silent non-zero exit is a clean
negative and triggers one `mkdir -p`, whose own failure raises
`CalledProcessError` (the call uses `check=True`). -/
def remote_mkdir (w : JobWorld) (dest_dir : String) :
    List Action × Except String Unit :=
  let trace := [Action.existsTest dest_dir]
  if w.existsCheck.returncode == 0 then
    (trace, .ok ())
  else if w.existsCheck.stdout != "" ∨ w.existsCheck.stderr != "" then
    (trace, .error "Unexpected output checking for existence of remote directory")
  else
    (trace ++ [Action.mkdirP dest_dir],
     if w.mkdir_ok then .ok () else .error "CalledProcessError: mkdir")

/-- Model of `backup(server, bwlimit, additional_rsync_opts, backup_job, backup_type)`
(rsincr.py lines 79-123) as a trace of actions.  The steps run in source
order — remote_mkdir, rsync transfer, mtime touch, latest relink — and any
raised exception (propagated from remote_mkdir, RsyncError from sysrsync.run,
CalledProcessError from the touch or from remote_link) stops the function at
that point. -/
def backup (bwlimit : Option String) (additional_rsync_opts : Option (List String))
    (backup_job : BackupJob) (backup_type : String) (now : DateTime)
    (w : JobWorld) : List Action × Except String Unit :=
  let datetime := snapshot_id now
  let dest_dir := backup_job.dest_dir
  let mk := remote_mkdir w dest_dir
  match mk.2 with
  | .error e => (mk.1, .error e)
  | .ok () =>
    let opts := rsync_options bwlimit additional_rsync_opts backup_job backup_type
    let dest := pathJoin dest_dir datetime
    let trace := mk.1 ++ [Action.transfer opts dest]
    if !w.transfer_ok then (trace, .error "RsyncError")
    else
      let trace := trace ++ [Action.touch dest]
      if !w.touch_ok then (trace, .error "CalledProcessError: touch")
      else
        let trace := trace ++ [Action.link datetime (pathJoin dest_dir "latest")]
        if !w.link_ok then (trace, .error "CalledProcessError: ln")
        else (trace, .ok ())

/-- The outcomes of the subprocesses a single `purge` call may run:
the `find` discovery (its success and its stdout, already split into lines)
and, positionally for each discovered snapshot, the mirror-rsync outcome and
the rmdir outcome. -/
structure PurgeWorld where
  find_ok : Bool
  expired : List String
  outcomes : List (Bool × Bool)
deriving Repr, DecidableEq

/-- The per-snapshot loop of `purge` (rsincr.py lines 163-173): for each
expired backup, mirror an empty temporary directory over it with rsync, then
`rmdir` it over ssh.  Both calls raise on failure (RsyncError, and
`check=True` for the rmdir), which aborts the loop. -/
def purge_loop (opts : List String) : List String → List (Bool × Bool) →
    List Action × Except String Unit
  | [], _ => ([], .ok ())
  | expired_backup :: rest, outs =>
    let outcome := outs.headD (true, true)
    let trace := [Action.purgeMirror opts expired_backup]
    if !outcome.1 then (trace, .error "RsyncError")
    else
      let trace := trace ++ [Action.rmdir expired_backup]
      if !outcome.2 then (trace, .error "CalledProcessError: rmdir")
      else
        let r := purge_loop opts rest (outs.drop 1)
        (trace ++ r.1, r.2)

/-- The rsync option list used by `purge` to mirror an empty directory
(rsincr.py lines 158-161): `['-r', '--delete']` plus the passthrough
options. -/
def purgeOpts (additional_rsync_opts : Option (List String)) : List String :=
  ["-r", "--delete"] ++
    (if pyTruthyList additional_rsync_opts then additional_rsync_opts.getD []
     else [])

/-- Model of `purge(server, additional_rsync_opts, backup_job, retention_days)`
(rsincr.py lines 147-173).  `get_expired_backups` (lines 175-190) runs the
`find` subprocess with `check=True`: a failing find raises
`CalledProcessError`; empty stdout makes it return `False`, and `purge` then
returns without doing anything.  Otherwise each discovered snapshot is
processed by the loop with the assembled purge options. -/
def purge (additional_rsync_opts : Option (List String)) (backup_job : BackupJob)
    (retention_days : Int) (w : PurgeWorld) : List Action × Except String Unit :=
  let trace := [Action.findExpired backup_job.dest_dir retention_days]
  if !w.find_ok then (trace, .error "CalledProcessError: find")
  else if w.expired.isEmpty then (trace, .ok ())
  else
    let r := purge_loop (purgeOpts additional_rsync_opts) w.expired w.outcomes
    (trace ++ r.1, r.2)

/-- The job loop of `main` (rsincr.py lines 52-65): for each configured job,
run `backup`, then — when `schedule.retention_days` is present and truthy —
run `purge`.  Neither call is wrapped in a try/except, so the first exception
propagates out of the loop and the remaining jobs are not attempted. -/
def run_jobs (bwlimit : Option String)
    (additional_rsync_opts : Option (List String)) (retention_days : Option Int)
    (backup_type : String) (now : DateTime) :
    List (String × BackupJob) → List (JobWorld × PurgeWorld) →
    List Action × Except String Unit
  | [], _ => ([], .ok ())
  | (name, job) :: rest, worlds =>
    let w := worlds.headD (default, ⟨true, [], []⟩)
    let b := backup bwlimit additional_rsync_opts job backup_type now w.1
    let trace := Action.jobStart name :: b.1
    match b.2 with
    | .error e => (trace, .error e)
    | .ok () =>
      if pyTruthyInt retention_days then
        let p := purge additional_rsync_opts job (retention_days.getD 0) w.2
        let trace := trace ++ p.1
        match p.2 with
        | .error e => (trace, .error e)
        | .ok () =>
          let r := run_jobs bwlimit additional_rsync_opts retention_days
            backup_type now rest (worlds.drop 1)
          (trace ++ r.1, r.2)
      else
        let r := run_jobs bwlimit additional_rsync_opts retention_days
          backup_type now rest (worlds.drop 1)
        (trace ++ r.1, r.2)

/-- The world of one whole invocation: whether the non-blocking
`fcntl.lockf` succeeds, and the per-job subprocess outcomes. -/
structure MainWorld where
  lock_ok : Bool
  jobWorlds : List (JobWorld × PurgeWorld)
deriving Repr, DecidableEq

/-- Model of `main` after configuration loading and validation (rsincr.py lines
30-65), as a trace.  The backup type is determined first (lines 31-37); only
then is the lock file opened for writing — truncating it — and the
non-blocking exclusive lock attempted (lines 39-48).  A failed lock attempt
re-raises the OSError before `atexit.register` runs, so the cleanup that
removes the lock file is never registered on that path.  After a successful
lock the cleanup is registered and runs at every process exit, normal or
exceptional, which the model renders by appending `removeLock` to the trace
whenever `registerCleanup` has occurred. -/
def mainRun (force_full_backup : Bool) (schedule : Option Schedule)
    (weekday monthday : Int) (lockfile_config : Option String)
    (bwlimit : Option String) (additional_rsync_opts : Option (List String))
    (backup_jobs : List (String × BackupJob)) (now : DateTime)
    (mw : MainWorld) : List Action × Except String Unit :=
  let trace := [Action.decideType]
  match decide_backup_type force_full_backup schedule weekday monthday with
  | .error e => (trace, .error e)
  | .ok backup_type =>
    let lockfile := lockfile_config.getD ".rsincr.lock"
    let trace := trace ++ [Action.openLockTruncate lockfile, Action.lockAttempt]
    if !mw.lock_ok then (trace, .error "OSError: lock")
    else
      let trace := trace ++ [Action.registerCleanup]
      let retention_days := (schedule.getD ⟨none, none, none⟩).retention_days
      let jobs := run_jobs bwlimit additional_rsync_opts retention_days
        backup_type now backup_jobs mw.jobWorlds
      (trace ++ jobs.1 ++ [Action.removeLock], jobs.2)

/-! ## Helper functions and lemmas shared by the claim theorems -/

/-- Number of `mkdir -p` invocations in a trace. -/
def countMkdirP (trace : List Action) : Nat :=
  trace.countP (fun a => match a with | Action.mkdirP _ => true | _ => false)

/-- Is this action the completion stamp (the remote touch)? -/
def isTouch : Action → Bool
  | .touch _ => true
  | _ => false

/-- Is this action the latest-pointer relink? -/
def isLink : Action → Bool
  | .link _ _ => true
  | _ => false

/-- Is this action the rsync transfer of the job source? -/
def isTransfer : Action → Bool
  | .transfer _ _ => true
  | _ => false

/-- Erase the checksum option from a transfer invocation, leaving every other
action untouched; used to compare executions up to that one option. -/
def eraseChecksum : Action → Action
  | .transfer opts dest => .transfer (opts.filter (fun o => o != "--checksum")) dest
  | a => a

/-- A job as configured in tests.py: source01 to dest01, no options. -/
def sampleJob : BackupJob := ⟨"source01", "dest01", none, none⟩

/-- A concrete instant, 2019-01-01 00:00:00. -/
def sampleTime : DateTime := ⟨2019, 1, 1, 0, 0, 0⟩

/-- A world in which every subprocess of a backup succeeds (the existence
test reports the destination directory present). -/
def okWorld : JobWorld := ⟨⟨0, "", ""⟩, true, true, true, true⟩

/-- A world identical to `okWorld` except that the rsync transfer exits
non-zero. -/
def failTransferWorld : JobWorld := ⟨⟨0, "", ""⟩, true, false, true, true⟩

/-- A purge world in which discovery succeeds and finds nothing. -/
def emptyPurge : PurgeWorld := ⟨true, [], []⟩

/-- Is this action the start-of-job marker? -/
def isJobStart : Action → Bool
  | .jobStart _ => true
  | _ => false

/-- One iteration of the job loop (rsincr.py lines 52-65) returns normally:
the backup succeeds and, when retention is configured (truthy), so does the
purge. -/
def jobStepOK (bwlimit : Option String)
    (additional_rsync_opts : Option (List String)) (retention_days : Option Int)
    (backup_type : String) (now : DateTime) (job : BackupJob)
    (w : JobWorld × PurgeWorld) : Prop :=
  (backup bwlimit additional_rsync_opts job backup_type now w.1).2 =
    Except.ok () ∧
  (pyTruthyInt retention_days = true →
    (purge additional_rsync_opts job (retention_days.getD 0) w.2).2 =
      Except.ok ())

/-- One iteration of the job loop raises the exception e: either the backup
raises e, or the backup succeeds and the configured purge raises e. -/
def jobStepFails (bwlimit : Option String)
    (additional_rsync_opts : Option (List String)) (retention_days : Option Int)
    (backup_type : String) (now : DateTime) (e : String) (job : BackupJob)
    (w : JobWorld × PurgeWorld) : Prop :=
  (backup bwlimit additional_rsync_opts job backup_type now w.1).2 =
    Except.error e ∨
  ((backup bwlimit additional_rsync_opts job backup_type now w.1).2 =
      Except.ok () ∧
    pyTruthyInt retention_days = true ∧
    (purge additional_rsync_opts job (retention_days.getD 0) w.2).2 =
      Except.error e)

/-- The exception surfaced by a failed lock acquisition (rsincr.py lines
42-48): the except block re-raises the caught OSError unchanged, so the
errno set by fcntl.lockf — EAGAIN/EACCES when the lock is already held by
another process, other values for other I/O failures — survives to the
caller. -/
inductive LockError where
  | osError (errno : Int)
deriving Repr, DecidableEq

/-- Model of the lock-acquisition steps of main (rsincr.py lines 42-50),
refining the boolean lock outcome of mainRun with the errno of the OSError
raised by fcntl.lockf: open the lock file for writing (truncating it),
attempt the non-blocking exclusive lock; on failure log and re-raise the
same OSError, errno intact; on success register the lock-file cleanup. -/
def acquire_lock (lockfile : String) (lockf_errno : Option Int) :
    List Action × Except LockError Unit :=
  let trace := [Action.openLockTruncate lockfile, Action.lockAttempt]
  match lockf_errno with
  | none => (trace ++ [Action.registerCleanup], .ok ())
  | some errno => (trace, .error (.osError errno))

theorem digitChar_toNat : ∀ d < 10, (digitChar d).toNat = 48 + d := by decide

theorem pathJoin_dotdot_latest : pathJoin ".." "latest" = "../latest" := by decide

/-- The option list as one concatenation of its conditional groups. -/
theorem rsync_options_concat (bwlimit : Option String)
    (additional_rsync_opts : Option (List String)) (backup_job : BackupJob)
    (backup_type : String) :
    rsync_options bwlimit additional_rsync_opts backup_job backup_type =
      ["-a", "--delete", "--link-dest=../latest"] ++
      (if pyTruthyStr bwlimit then ["--bwlimit=" ++ bwlimit.getD ""] else []) ++
      (if pyTruthyList additional_rsync_opts then additional_rsync_opts.getD []
       else []) ++
      (if backup_type == "full" then ["--checksum"] else []) ++
      (if backup_job.compress.getD false then ["-z"] else []) ++
      (if pyTruthyList backup_job.exclude then
        (backup_job.exclude.getD []).map (fun e => "--exclude=" ++ e)
       else []) := by
  simp only [rsync_options, pathJoin_dotdot_latest]
  split <;> split <;> split <;> split <;> split <;> simp

/-- The option list does not depend on which non-full string names the
backup type. -/
theorem rsync_options_ne_full (bwlimit : Option String)
    (additional_rsync_opts : Option (List String)) (backup_job : BackupJob)
    (backup_type : String) (h : backup_type ≠ "full") :
    rsync_options bwlimit additional_rsync_opts backup_job backup_type =
      rsync_options bwlimit additional_rsync_opts backup_job "incremental" := by
  simp only [rsync_options]
  rw [show (backup_type == "full") = false by simp [h]]
  simp

/-- The destination-preparation trace is one of two shapes, neither of which
contains a transfer, touch, link or jobStart action. -/
theorem remote_mkdir_trace_shape (w : JobWorld) (dest_dir : String) :
    (remote_mkdir w dest_dir).1 = [Action.existsTest dest_dir] ∨
    (remote_mkdir w dest_dir).1 =
      [Action.existsTest dest_dir, Action.mkdirP dest_dir] := by
  simp only [remote_mkdir]
  split
  · exact Or.inl rfl
  · split
    · exact Or.inl rfl
    · exact Or.inr rfl

/-- Exhaustive description of a backup run: it stops at the first failing
step, and the trace grows by one action per step reached. -/
theorem backup_cases (bwlimit : Option String)
    (additional_rsync_opts : Option (List String)) (backup_job : BackupJob)
    (backup_type : String) (now : DateTime) (w : JobWorld) :
    (∃ e, (remote_mkdir w backup_job.dest_dir).2 = Except.error e ∧
      backup bwlimit additional_rsync_opts backup_job backup_type now w =
        ((remote_mkdir w backup_job.dest_dir).1, Except.error e)) ∨
    ((remote_mkdir w backup_job.dest_dir).2 = Except.ok () ∧
      w.transfer_ok = false ∧
      backup bwlimit additional_rsync_opts backup_job backup_type now w =
        ((remote_mkdir w backup_job.dest_dir).1 ++
          [Action.transfer (rsync_options bwlimit additional_rsync_opts backup_job backup_type)
            (pathJoin backup_job.dest_dir (snapshot_id now))],
         Except.error "RsyncError")) ∨
    ((remote_mkdir w backup_job.dest_dir).2 = Except.ok () ∧
      w.transfer_ok = true ∧ w.touch_ok = false ∧
      backup bwlimit additional_rsync_opts backup_job backup_type now w =
        ((remote_mkdir w backup_job.dest_dir).1 ++
          [Action.transfer (rsync_options bwlimit additional_rsync_opts backup_job backup_type)
            (pathJoin backup_job.dest_dir (snapshot_id now)),
           Action.touch (pathJoin backup_job.dest_dir (snapshot_id now))],
         Except.error "CalledProcessError: touch")) ∨
    ((remote_mkdir w backup_job.dest_dir).2 = Except.ok () ∧
      w.transfer_ok = true ∧ w.touch_ok = true ∧
      backup bwlimit additional_rsync_opts backup_job backup_type now w =
        ((remote_mkdir w backup_job.dest_dir).1 ++
          [Action.transfer (rsync_options bwlimit additional_rsync_opts backup_job backup_type)
            (pathJoin backup_job.dest_dir (snapshot_id now)),
           Action.touch (pathJoin backup_job.dest_dir (snapshot_id now)),
           Action.link (snapshot_id now) (pathJoin backup_job.dest_dir "latest")],
         if w.link_ok then Except.ok () else Except.error "CalledProcessError: ln")) := by
  rcases hres : (remote_mkdir w backup_job.dest_dir).2 with e | u
  · exact Or.inl ⟨e, rfl, by simp [backup, hres]⟩
  · cases u
    cases htr : w.transfer_ok
    · exact Or.inr (Or.inl ⟨rfl, rfl, by simp [backup, hres, htr]⟩)
    · cases hto : w.touch_ok
      · exact Or.inr (Or.inr (Or.inl ⟨rfl, rfl, rfl, by simp [backup, hres, htr, hto]⟩))
      · refine Or.inr (Or.inr (Or.inr ⟨rfl, rfl, rfl, ?_⟩))
        cases hl : w.link_ok <;> simp [backup, hres, htr, hto, hl]

/-- No action of a backup trace is a jobStart marker. -/
theorem backup_no_jobStart (bwlimit : Option String)
    (additional_rsync_opts : Option (List String)) (backup_job : BackupJob)
    (backup_type : String) (now : DateTime) (w : JobWorld) (n : String) :
    Action.jobStart n ∉
      (backup bwlimit additional_rsync_opts backup_job backup_type now w).1 := by
  rcases remote_mkdir_trace_shape w backup_job.dest_dir with hmk | hmk <;>
    rcases backup_cases bwlimit additional_rsync_opts backup_job backup_type now w with
      ⟨e, _, hb⟩ | ⟨_, _, hb⟩ | ⟨_, _, _, hb⟩ | ⟨_, _, _, hb⟩ <;>
    simp [hb, hmk]

/-- When every mirror and every rmdir succeeds, the purge loop performs
exactly one mirror and one rmdir per snapshot, in discovery order. -/
theorem purge_loop_all_ok (opts : List String) (l : List String) :
    purge_loop opts l (List.replicate l.length (true, true)) =
      (l.flatMap (fun s => [Action.purgeMirror opts s, Action.rmdir s]),
       Except.ok ()) := by
  induction l with
  | nil => rfl
  | cons s rest ih =>
    simp only [List.length_cons, List.replicate, purge_loop, List.headD_cons,
      Bool.not_true, List.drop_succ_cons, List.drop_zero, ih, List.flatMap_cons]
    simp

/-- Filtering out the checksum option makes the assembled option list
independent of the backup type. -/
theorem rsync_options_filter_checksum (bwlimit : Option String)
    (additional_rsync_opts : Option (List String)) (backup_job : BackupJob)
    (bt1 bt2 : String) :
    (rsync_options bwlimit additional_rsync_opts backup_job bt1).filter
      (fun o => o != "--checksum") =
    (rsync_options bwlimit additional_rsync_opts backup_job bt2).filter
      (fun o => o != "--checksum") := by
  rw [rsync_options_concat, rsync_options_concat]
  simp only [List.filter_append]
  have h1 : ∀ bt : String,
      (if bt == "full" then ["--checksum"] else []).filter
        (fun o => o != "--checksum") = ([] : List String) := by
    intro bt
    split <;> simp
  rw [h1, h1]

/-- An action satisfies isJobStart exactly when it is a jobStart marker. -/
theorem isJobStart_iff (a : Action) :
    isJobStart a = true ↔ ∃ n, a = Action.jobStart n := by
  cases a <;> simp [isJobStart]

/-- A backup trace contains no jobStart markers. -/
theorem backup_countP_jobStart (bwlimit : Option String)
    (additional_rsync_opts : Option (List String)) (backup_job : BackupJob)
    (backup_type : String) (now : DateTime) (w : JobWorld) :
    (backup bwlimit additional_rsync_opts backup_job backup_type now
      w).1.countP isJobStart = 0 := by
  refine List.countP_eq_zero.mpr (fun a ha hpa => ?_)
  obtain ⟨n, rfl⟩ := (isJobStart_iff a).mp hpa
  exact backup_no_jobStart bwlimit additional_rsync_opts backup_job
    backup_type now w n ha

/-- The purge loop performs only mirror and rmdir actions; in particular it
never emits a jobStart marker. -/
theorem purge_loop_no_jobStart (opts : List String) (l : List String)
    (outs : List (Bool × Bool)) (n : String) :
    Action.jobStart n ∉ (purge_loop opts l outs).1 := by
  induction l generalizing outs with
  | nil => simp [purge_loop]
  | cons s rest ih =>
    rcases outs with _ | ⟨⟨m, r⟩, outs2⟩
    · simp [purge_loop, ih]
    · cases m <;> cases r <;> simp [purge_loop, ih]

/-- A purge trace contains no jobStart markers. -/
theorem purge_no_jobStart (additional_rsync_opts : Option (List String))
    (backup_job : BackupJob) (retention_days : Int) (w : PurgeWorld)
    (n : String) :
    Action.jobStart n ∉
      (purge additional_rsync_opts backup_job retention_days w).1 := by
  have hl := purge_loop_no_jobStart (purgeOpts additional_rsync_opts)
    w.expired w.outcomes n
  simp only [purge]
  split
  · simp
  · split
    · simp
    · simp [hl]

/-- Counting version of purge_no_jobStart. -/
theorem purge_countP_jobStart (additional_rsync_opts : Option (List String))
    (backup_job : BackupJob) (retention_days : Int) (w : PurgeWorld) :
    (purge additional_rsync_opts backup_job retention_days w).1.countP
      isJobStart = 0 := by
  refine List.countP_eq_zero.mpr (fun a ha hpa => ?_)
  obtain ⟨n, rfl⟩ := (isJobStart_iff a).mp hpa
  exact purge_no_jobStart additional_rsync_opts backup_job retention_days w
    n ha

/-- The purge loop up to and including its first failing step: the snapshots
before the failure each get their mirror and rmdir, the failing snapshot gets
a lone mirror when the mirror itself fails or a mirror and a failing rmdir,
and nothing after the failure is attempted. -/
theorem purge_loop_first_failure (opts : List String) (done : List String)
    (s : String) (rest : List String) (m r : Bool)
    (outs : List (Bool × Bool)) (h : ¬(m = true ∧ r = true)) :
    purge_loop opts (done ++ s :: rest)
        (List.replicate done.length (true, true) ++ (m, r) :: outs) =
      (done.flatMap (fun snap =>
          [Action.purgeMirror opts snap, Action.rmdir snap]) ++
        (if m then [Action.purgeMirror opts s, Action.rmdir s]
         else [Action.purgeMirror opts s]),
       Except.error
         (if m then "CalledProcessError: rmdir" else "RsyncError")) := by
  induction done with
  | nil =>
    cases m
    · simp [purge_loop]
    · cases r
      · simp [purge_loop]
      · exact absurd ⟨rfl, rfl⟩ h
  | cons d drest ih =>
    simp only [List.length_cons, List.replicate_succ, List.cons_append,
      purge_loop, List.headD_cons, Bool.not_true, List.drop_succ_cons,
      List.drop_zero, ih, List.flatMap_cons]
    simp [ih, List.append_assoc]

end Rsincr

namespace Rsincr

/-! ## Claim theorems -/

/-- C1, counterexample: with no override and the schedule section entirely
absent from the configuration, the backup-type decision raises a KeyError
(modelled as an error value) instead of returning Incremental as the claim
asserts. -/
theorem c1_absent_schedule_keyerror :
    decide_backup_type false none 3 15 = Except.error "KeyError: schedule" ∧
      decide_backup_type false none 3 15 ≠ Except.ok "incremental" :=
  ⟨rfl, fun h => Except.noConfusion h⟩

/-- C1 (amended): whenever the schedule section is present, the backup-type
decision returns Full iff the override flag is set, or the weekday of now is
in the configured weekday set, or the day-of-month of now is in the
configured month-day set, and Incremental otherwise; this holds when the
day-sets are empty or absent.  The override returns Full without consulting
the schedule at all — even when the schedule section is absent.  (With the
schedule section entirely absent and no override, the decision instead
raises a KeyError; see the counterexample.) -/
theorem c1_backup_type_decision (force_full_backup : Bool) (sched : Schedule)
    (weekday monthday : Int) :
    decide_backup_type force_full_backup (some sched) weekday monthday =
      Except.ok
        (if force_full_backup = true ∨
            weekday ∈ sched.full_backup_week_days.getD [] ∨
            monthday ∈ sched.full_backup_month_days.getD []
         then "full" else "incremental") ∧
    (force_full_backup = true → ∀ schedule : Option Schedule,
      decide_backup_type force_full_backup schedule weekday monthday =
        Except.ok "full") := by
  constructor
  · by_cases hf : force_full_backup
    · simp [decide_backup_type, hf]
    · simp only [Bool.not_eq_true] at hf
      simp only [decide_backup_type, hf, get_backup_type, Bool.false_eq_true,
        false_or, if_false]
      split <;> simp_all
  · intro hf _schedule
    simp [decide_backup_type, hf]

/-- C1 witness: the override alone forces Full, at a concrete input where
the schedule would have said Incremental. -/
theorem c1_backup_type_decision_witness :
    decide_backup_type true (some ⟨some [2], none, none⟩) 3 15 =
      Except.ok "full" :=
  (c1_backup_type_decision true ⟨some [2], none, none⟩ 3 15).2 rfl
    (some ⟨some [2], none, none⟩)

/-- C2: the assembled transfer option list is exactly the base triple
-a, --delete, --link-dest=../latest in that order, then the bandwidth-limit
option when a bandwidth limit is configured (truthy), then the passthrough
options in configuration order, then --checksum iff the backup type is the
string full, then -z iff the job requests compression, then one
--exclude=pattern option per configured exclusion pattern in configuration
order. -/
theorem c2_rsync_options_shape (bwlimit : Option String)
    (additional_rsync_opts : Option (List String)) (backup_job : BackupJob)
    (backup_type : String) :
    rsync_options bwlimit additional_rsync_opts backup_job backup_type =
      ["-a", "--delete", "--link-dest=../latest"] ++
      (if pyTruthyStr bwlimit then ["--bwlimit=" ++ bwlimit.getD ""] else []) ++
      (if pyTruthyList additional_rsync_opts then additional_rsync_opts.getD []
       else []) ++
      (if backup_type == "full" then ["--checksum"] else []) ++
      (if backup_job.compress.getD false then ["-z"] else []) ++
      (if pyTruthyList backup_job.exclude then
        (backup_job.exclude.getD []).map (fun e => "--exclude=" ++ e)
       else []) :=
  rsync_options_concat bwlimit additional_rsync_opts backup_job backup_type

/-- C6: the destination-preparation command issues exactly one recursive
directory-creation command on a clean negative existence test (non-zero exit,
no output), zero on a positive test (zero exit), and zero — surfacing an
error instead — on an ambiguous test (non-zero exit with output). -/
theorem c6_remote_mkdir_cases (w : JobWorld) (dest_dir : String) :
    (w.existsCheck.returncode = 0 →
      countMkdirP (remote_mkdir w dest_dir).1 = 0 ∧
        (remote_mkdir w dest_dir).2 = Except.ok ()) ∧
    (w.existsCheck.returncode ≠ 0 → w.existsCheck.stdout = "" →
      w.existsCheck.stderr = "" →
      countMkdirP (remote_mkdir w dest_dir).1 = 1) ∧
    (w.existsCheck.returncode ≠ 0 →
      (w.existsCheck.stdout ≠ "" ∨ w.existsCheck.stderr ≠ "") →
      countMkdirP (remote_mkdir w dest_dir).1 = 0 ∧
        (remote_mkdir w dest_dir).2 =
          Except.error
            "Unexpected output checking for existence of remote directory") := by
  refine ⟨fun h0 => ?_, fun h0 hso hse => ?_, fun h0 hout => ?_⟩
  · simp [remote_mkdir, h0, countMkdirP]
  · simp [remote_mkdir, h0, hso, hse, countMkdirP]
  · simp [remote_mkdir, h0, countMkdirP]
    rcases hout with h | h <;> simp [h]

/-- C6 witness: a clean negative existence test at a concrete world yields
exactly one mkdir -p. -/
theorem c6_remote_mkdir_cases_witness :
    countMkdirP (remote_mkdir ⟨⟨1, "", ""⟩, true, true, true, true⟩ "dest01").1 = 1 :=
  (c6_remote_mkdir_cases ⟨⟨1, "", ""⟩, true, true, true, true⟩ "dest01").2.1
    (by decide) rfl rfl

/-- C8, counterexample: the snapshot identifier for 2019-01-01 00:00:00 is
the 15-character string 20190101T000000, which contains a literal T and is
not the 14-digit concatenation YYYYMMDDhhmmss the claim asserts. -/
theorem c8_snapshot_id_has_separator :
    snapshot_id ⟨2019, 1, 1, 0, 0, 0⟩ = "20190101T000000" ∧
    spec_snapshot_id ⟨2019, 1, 1, 0, 0, 0⟩ = "20190101000000" ∧
    snapshot_id ⟨2019, 1, 1, 0, 0, 0⟩ ≠ spec_snapshot_id ⟨2019, 1, 1, 0, 0, 0⟩ ∧
    ¬ (snapshot_id ⟨2019, 1, 1, 0, 0, 0⟩).data.all Char.isDigit := by decide

/-- C8 (amended): the snapshot identifier renders now in the layout
YYYYMMDD T hhmmss — four year digits, two month digits, two day digits, a
literal T separator, then two digits each for hour, minute and second — and
this rendering is lossless: decoding the identifier recovers exactly the
instant it was built from. -/
theorem c8_snapshot_id_layout (t : DateTime) (hy : t.year < 10000)
    (hmo : t.month < 100) (hd : t.day < 100) (hh : t.hour < 100)
    (hmi : t.minute < 100) (hs : t.second < 100) :
    parse_snapshot_id (snapshot_id t) = some t := by
  obtain ⟨y, mo, d, h, mi, s⟩ := t
  simp only at hy hmo hd hh hmi hs
  have e1 := digitChar_toNat (y / 1000 % 10) (by omega)
  have e2 := digitChar_toNat (y / 100 % 10) (by omega)
  have e3 := digitChar_toNat (y / 10 % 10) (by omega)
  have e4 := digitChar_toNat (y % 10) (by omega)
  have e5 := digitChar_toNat (mo / 10 % 10) (by omega)
  have e6 := digitChar_toNat (mo % 10) (by omega)
  have e7 := digitChar_toNat (d / 10 % 10) (by omega)
  have e8 := digitChar_toNat (d % 10) (by omega)
  have e9 := digitChar_toNat (h / 10 % 10) (by omega)
  have e10 := digitChar_toNat (h % 10) (by omega)
  have e11 := digitChar_toNat (mi / 10 % 10) (by omega)
  have e12 := digitChar_toNat (mi % 10) (by omega)
  have e13 := digitChar_toNat (s / 10 % 10) (by omega)
  have e14 := digitChar_toNat (s % 10) (by omega)
  simp only [parse_snapshot_id, snapshot_id, pad4, pad2, String.data_append,
    List.cons_append, List.nil_append, digitsVal, List.foldl,
    e1, e2, e3, e4, e5, e6, e7, e8, e9, e10, e11, e12, e13, e14]
  simp only [if_true, Option.some.injEq, DateTime.mk.injEq]
  refine ⟨by omega, by omega, by omega, by omega, by omega, by omega⟩

/-- C8 witness: the layout theorem at the concrete instant
2019-01-01 00:00:00. -/
theorem c8_snapshot_id_layout_witness :
    parse_snapshot_id (snapshot_id ⟨2019, 1, 1, 0, 0, 0⟩) =
      some ⟨2019, 1, 1, 0, 0, 0⟩ :=
  c8_snapshot_id_layout ⟨2019, 1, 1, 0, 0, 0⟩ (by decide) (by decide)
    (by decide) (by decide) (by decide) (by decide)

/-- C3: if the rsync transfer is attempted and exits non-zero, the backup
stops with an error before stamping completion or touching the latest
pointer — neither a touch nor a link action occurs; and whenever the latest
pointer is relinked, the transfer and the completion stamp both succeeded and
the trace ends transfer, then touch, then link, so the pointer is only ever
moved to a fully transferred, stamped snapshot. -/
theorem c3_latest_only_after_success (bwlimit : Option String)
    (additional_rsync_opts : Option (List String)) (backup_job : BackupJob)
    (backup_type : String) (now : DateTime) (w : JobWorld) :
    ((backup bwlimit additional_rsync_opts backup_job backup_type now w).1.any
        isTransfer = true →
      w.transfer_ok = false →
      (backup bwlimit additional_rsync_opts backup_job backup_type now w).1.any
          isTouch = false ∧
      (backup bwlimit additional_rsync_opts backup_job backup_type now w).1.any
          isLink = false ∧
      (backup bwlimit additional_rsync_opts backup_job backup_type now w).2 =
        Except.error "RsyncError") ∧
    ((backup bwlimit additional_rsync_opts backup_job backup_type now w).1.any
        isLink = true →
      w.transfer_ok = true ∧ w.touch_ok = true ∧
      ∃ pre opts dest p dt lp,
        (backup bwlimit additional_rsync_opts backup_job backup_type now w).1 =
          pre ++ [Action.transfer opts dest, Action.touch p, Action.link dt lp]) := by
  rcases backup_cases bwlimit additional_rsync_opts backup_job backup_type now w with
    ⟨e, _, hb⟩ | ⟨_, htr, hb⟩ | ⟨_, htr, hto, hb⟩ | ⟨_, htr, hto, hb⟩
  · rcases remote_mkdir_trace_shape w backup_job.dest_dir with hmk | hmk <;>
      constructor <;> intro h1 <;>
      simp [hb, hmk, isTransfer, isTouch, isLink] at h1
  · refine ⟨fun _ _ => ?_, fun hl => ?_⟩
    · rcases remote_mkdir_trace_shape w backup_job.dest_dir with hmk | hmk <;>
        simp [hb, hmk, isTouch, isLink]
    · rcases remote_mkdir_trace_shape w backup_job.dest_dir with hmk | hmk <;>
        simp [hb, hmk, isLink] at hl
  · refine ⟨fun _ hfail => ?_, fun hl => ?_⟩
    · simp [htr] at hfail
    · rcases remote_mkdir_trace_shape w backup_job.dest_dir with hmk | hmk <;>
        simp [hb, hmk, isLink] at hl
  · refine ⟨fun _ hfail => ?_, fun _ => ?_⟩
    · simp [htr] at hfail
    · exact ⟨htr, hto, (remote_mkdir w backup_job.dest_dir).1,
        rsync_options bwlimit additional_rsync_opts backup_job backup_type,
        pathJoin backup_job.dest_dir (snapshot_id now),
        pathJoin backup_job.dest_dir (snapshot_id now),
        snapshot_id now, pathJoin backup_job.dest_dir "latest",
        by rw [hb]⟩

/-- C3 witness: in a concrete world where the destination exists and the
transfer fails, no touch and no link appear and the job errors. -/
theorem c3_latest_only_after_success_witness :
    (backup none none sampleJob "incremental" sampleTime failTransferWorld).1.any
        isTouch = false ∧
      (backup none none sampleJob "incremental" sampleTime failTransferWorld).1.any
        isLink = false ∧
      (backup none none sampleJob "incremental" sampleTime failTransferWorld).2 =
        Except.error "RsyncError" :=
  (c3_latest_only_after_success none none sampleJob "incremental" sampleTime
    failTransferWorld).1 (by decide) rfl

/-- C10: the backup-type argument influences a backup run only through the
presence of the checksum option: any backup type other than the exact string
full behaves identically to incremental (no error is raised), the full
option list is the non-full option list with --checksum inserted between the
passthrough group and the compression group, and a full run and any non-full
run have identical traces once the checksum option is erased from the
transfer invocation, with identical results. -/
theorem c10_backup_type_influence (bwlimit : Option String)
    (additional_rsync_opts : Option (List String)) (backup_job : BackupJob)
    (backup_type : String) (now : DateTime) (w : JobWorld)
    (h : backup_type ≠ "full") :
    backup bwlimit additional_rsync_opts backup_job backup_type now w =
      backup bwlimit additional_rsync_opts backup_job "incremental" now w ∧
    (∃ A B, rsync_options bwlimit additional_rsync_opts backup_job "full" =
        A ++ ["--checksum"] ++ B ∧
      rsync_options bwlimit additional_rsync_opts backup_job backup_type =
        A ++ B) ∧
    (backup bwlimit additional_rsync_opts backup_job "full" now w).1.map
        eraseChecksum =
      (backup bwlimit additional_rsync_opts backup_job backup_type now w).1.map
        eraseChecksum ∧
    (backup bwlimit additional_rsync_opts backup_job "full" now w).2 =
      (backup bwlimit additional_rsync_opts backup_job backup_type now w).2 := by
  have hopts := rsync_options_ne_full bwlimit additional_rsync_opts backup_job
    backup_type h
  refine ⟨?_, ?_, ?_, ?_⟩
  · simp only [backup, hopts]
  · refine ⟨["-a", "--delete", "--link-dest=../latest"] ++
      (if pyTruthyStr bwlimit then ["--bwlimit=" ++ bwlimit.getD ""] else []) ++
      (if pyTruthyList additional_rsync_opts then additional_rsync_opts.getD []
       else []),
      (if backup_job.compress.getD false then ["-z"] else []) ++
      (if pyTruthyList backup_job.exclude then
        (backup_job.exclude.getD []).map (fun e => "--exclude=" ++ e)
       else []), ?_, ?_⟩
    · rw [rsync_options_concat]
      simp
    · rw [rsync_options_concat]
      rw [show (backup_type == "full") = false by simp [h]]
      simp
  · have hf := rsync_options_filter_checksum bwlimit additional_rsync_opts
      backup_job "full" backup_type
    rcases backup_cases bwlimit additional_rsync_opts backup_job "full" now w with
        ⟨e, _, hb1⟩ | ⟨_, htr, hb1⟩ | ⟨_, htr, hto, hb1⟩ | ⟨_, htr, hto, hb1⟩ <;>
      rcases backup_cases bwlimit additional_rsync_opts backup_job backup_type now w with
        ⟨e2, h2, hb2⟩ | ⟨_, htr2, hb2⟩ | ⟨_, htr2, hto2, hb2⟩ | ⟨_, htr2, hto2, hb2⟩ <;>
      simp_all [eraseChecksum]
  · rcases backup_cases bwlimit additional_rsync_opts backup_job "full" now w with
        ⟨e, he, hb1⟩ | ⟨_, htr, hb1⟩ | ⟨_, htr, hto, hb1⟩ | ⟨_, htr, hto, hb1⟩ <;>
      rcases backup_cases bwlimit additional_rsync_opts backup_job backup_type now w with
        ⟨e2, h2, hb2⟩ | ⟨_, htr2, hb2⟩ | ⟨_, htr2, hto2, hb2⟩ | ⟨_, htr2, hto2, hb2⟩ <;>
      simp_all

/-- C10 witness: at a concrete job and world, a misspelled backup type
behaves exactly like incremental. -/
theorem c10_backup_type_influence_witness :
    backup none none sampleJob "Full" sampleTime okWorld =
      backup none none sampleJob "incremental" sampleTime okWorld :=
  (c10_backup_type_influence none none sampleJob "Full" sampleTime okWorld
    (by decide)).1

/-- C4, counterexample: with two configured jobs and a world in which the
first job's transfer fails, the run never reaches the second job — the
failure propagates out of the loop (non-zero exit), so one job's failure does
prevent the subsequent job from being attempted. -/
theorem c4_failure_blocks_later_jobs :
    Action.jobStart "job01" ∈
      (run_jobs none none none "incremental" sampleTime
        [("job01", sampleJob), ("job02", sampleJob)]
        [(failTransferWorld, emptyPurge), (okWorld, emptyPurge)]).1 ∧
    Action.jobStart "job02" ∉
      (run_jobs none none none "incremental" sampleTime
        [("job01", sampleJob), ("job02", sampleJob)]
        [(failTransferWorld, emptyPurge), (okWorld, emptyPurge)]).1 ∧
    (run_jobs none none none "incremental" sampleTime
        [("job01", sampleJob), ("job02", sampleJob)]
        [(failTransferWorld, emptyPurge), (okWorld, emptyPurge)]).2 =
      Except.error "RsyncError" :=
  ⟨by decide, by decide, rfl⟩

/-- C4 (amended): the job loop has no error handling — after any run of
jobs whose backups (and configured purges) all succeed, the first job whose
backup or purge raises makes the exception propagate out of the loop: the
run surfaces that error as its non-zero outcome, and exactly the jobs up to
and including the failing one were started, so none of the subsequent jobs
is attempted. -/
theorem c4_job_failure_aborts_run (bwlimit : Option String)
    (additional_rsync_opts : Option (List String)) (retention_days : Option Int)
    (backup_type : String) (now : DateTime) (name : String) (job : BackupJob)
    (rest : List (String × BackupJob)) (w : JobWorld × PurgeWorld)
    (wrest : List (JobWorld × PurgeWorld)) (e : String)
    (pre : List (String × BackupJob)) (wpre : List (JobWorld × PurgeWorld))
    (hpre : List.Forall₂ (fun nj pw => jobStepOK bwlimit additional_rsync_opts
      retention_days backup_type now nj.2 pw) pre wpre)
    (hfail : jobStepFails bwlimit additional_rsync_opts retention_days
      backup_type now e job w) :
    (run_jobs bwlimit additional_rsync_opts retention_days backup_type now
        (pre ++ (name, job) :: rest) (wpre ++ w :: wrest)).2 =
      Except.error e ∧
    (run_jobs bwlimit additional_rsync_opts retention_days backup_type now
        (pre ++ (name, job) :: rest) (wpre ++ w :: wrest)).1.countP
      isJobStart = pre.length + 1 := by
  induction hpre with
  | nil =>
    rcases hfail with hb | ⟨hb, hr, hp⟩
    · constructor <;>
        simp [run_jobs, hb, isJobStart, backup_countP_jobStart]
    · constructor <;>
        simp [run_jobs, hb, hr, hp, isJobStart, backup_countP_jobStart,
          purge_countP_jobStart, List.countP_append]
  | @cons a b l1 l2 h hrest ih =>
    obtain ⟨n0, j0⟩ := a
    obtain ⟨hbok, hpok⟩ := h
    rcases ih with ⟨ih1, ih2⟩
    cases hrt : pyTruthyInt retention_days
    · constructor <;>
        simp [run_jobs, List.cons_append, hbok, hrt, ih1, ih2, isJobStart,
          backup_countP_jobStart, List.countP_append, List.countP_cons]
    · constructor <;>
        simp [run_jobs, List.cons_append, hbok, hrt, hpok hrt, ih1, ih2,
          isJobStart, backup_countP_jobStart, purge_countP_jobStart,
          List.countP_append, List.countP_cons]

/-- C4 witness: a three-job run whose first job fully succeeds and whose
second job's transfer fails — the run errors and only two jobs were ever
started, so the third was not attempted. -/
theorem c4_job_failure_aborts_run_witness :
    (run_jobs none none none "incremental" sampleTime
        [("job01", sampleJob), ("job02", sampleJob), ("job03", sampleJob)]
        [(okWorld, emptyPurge), (failTransferWorld, emptyPurge),
         (okWorld, emptyPurge)]).2 = Except.error "RsyncError" ∧
    (run_jobs none none none "incremental" sampleTime
        [("job01", sampleJob), ("job02", sampleJob), ("job03", sampleJob)]
        [(okWorld, emptyPurge), (failTransferWorld, emptyPurge),
         (okWorld, emptyPurge)]).1.countP isJobStart = 2 :=
  c4_job_failure_aborts_run none none none "incremental" sampleTime "job02"
    sampleJob [("job03", sampleJob)] (failTransferWorld, emptyPurge)
    [(okWorld, emptyPurge)] "RsyncError" [("job01", sampleJob)]
    [(okWorld, emptyPurge)]
    (List.Forall₂.cons ⟨rfl, fun hc => absurd hc (by decide)⟩
      List.Forall₂.nil)
    (Or.inl rfl)

/-- C5, counterexample: two discovered expired snapshots, the first mirror
fails — the second snapshot receives neither a mirror nor a removal attempt,
because the exception aborts the batch; so a failure for one snapshot is not
independent of the remaining snapshots. -/
theorem c5_failure_stops_batch :
    Action.purgeMirror (purgeOpts none) "dest/20190101000000" ∈
      (purge none sampleJob 30
        ⟨true, ["dest/20190101000000", "dest/20190102000000"],
         [(false, true), (true, true)]⟩).1 ∧
    Action.purgeMirror (purgeOpts none) "dest/20190102000000" ∉
      (purge none sampleJob 30
        ⟨true, ["dest/20190101000000", "dest/20190102000000"],
         [(false, true), (true, true)]⟩).1 ∧
    Action.rmdir "dest/20190102000000" ∉
      (purge none sampleJob 30
        ⟨true, ["dest/20190101000000", "dest/20190102000000"],
         [(false, true), (true, true)]⟩).1 ∧
    (purge none sampleJob 30
        ⟨true, ["dest/20190101000000", "dest/20190102000000"],
         [(false, true), (true, true)]⟩).2 =
      Except.error "RsyncError" :=
  ⟨by decide, by decide, by decide, rfl⟩

/-- C5 (amended): when every step succeeds the purge performs exactly one
mirror-empty transfer and one directory removal per discovered snapshot, in
discovery order (and an empty discovery performs neither); but the snapshots
are not processed independently — the first failing mirror or removal, at
any position in the batch, raises out of the loop, so the snapshots already
processed got their mirror and removal, the failing snapshot got a lone
mirror (mirror failure) or a mirror plus the failing removal (removal
failure), and the remaining snapshots of the batch are not attempted. -/
theorem c5_purge_batch (additional_rsync_opts : Option (List String))
    (job : BackupJob) (retention_days : Int) (expired : List String)
    (done : List String) (s : String) (rest : List String) (m r : Bool)
    (outs : List (Bool × Bool)) (hfail : ¬(m = true ∧ r = true)) :
    purge additional_rsync_opts job retention_days
        ⟨true, expired, List.replicate expired.length (true, true)⟩ =
      ([Action.findExpired job.dest_dir retention_days] ++
        expired.flatMap (fun snap =>
          [Action.purgeMirror (purgeOpts additional_rsync_opts) snap,
           Action.rmdir snap]),
       Except.ok ()) ∧
    purge additional_rsync_opts job retention_days
        ⟨true, done ++ s :: rest,
         List.replicate done.length (true, true) ++ (m, r) :: outs⟩ =
      ([Action.findExpired job.dest_dir retention_days] ++
        (done.flatMap (fun snap =>
          [Action.purgeMirror (purgeOpts additional_rsync_opts) snap,
           Action.rmdir snap]) ++
         (if m then [Action.purgeMirror (purgeOpts additional_rsync_opts) s,
                     Action.rmdir s]
          else [Action.purgeMirror (purgeOpts additional_rsync_opts) s])),
       Except.error
         (if m then "CalledProcessError: rmdir" else "RsyncError")) := by
  constructor
  · rcases expired with _ | ⟨s0, rest0⟩
    · simp [purge]
    · have hl := purge_loop_all_ok (purgeOpts additional_rsync_opts) (s0 :: rest0)
      simp only [List.length_cons] at hl
      simp [purge, hl]
  · have hl := purge_loop_first_failure (purgeOpts additional_rsync_opts)
      done s rest m r outs hfail
    rcases done with _ | ⟨d0, drest⟩
    · simp only [List.length_nil, List.replicate, List.nil_append] at hl ⊢
      simp [purge, hl]
    · simp only [List.length_cons, List.replicate_succ, List.cons_append] at hl ⊢
      simp [purge, hl]

/-- C5 witness: three discovered snapshots, the second removal fails — the
first snapshot got its mirror and removal, the second its mirror and the
failing removal, and the third was never attempted. -/
theorem c5_purge_batch_witness :
    purge none sampleJob 30
        ⟨true,
         ["dest/20190101000000", "dest/20190102000000", "dest/20190103000000"],
         [(true, true), (true, false), (true, true)]⟩ =
      ([Action.findExpired "dest01" 30,
        Action.purgeMirror (purgeOpts none) "dest/20190101000000",
        Action.rmdir "dest/20190101000000",
        Action.purgeMirror (purgeOpts none) "dest/20190102000000",
        Action.rmdir "dest/20190102000000"],
       Except.error "CalledProcessError: rmdir") :=
  (c5_purge_batch none sampleJob 30 [] ["dest/20190101000000"]
    "dest/20190102000000" ["dest/20190103000000"] true false [(true, true)]
    (by decide)).2

/-- C7, counterexample: in a run with an immediately successful lock and no
jobs, the first recorded event is the backup-type decision and the lock
attempt comes strictly later — the lock is not acquired before the backup
type is determined. -/
theorem c7_decision_precedes_lock :
    (mainRun false (some ⟨none, none, none⟩) 3 15 none none none []
        sampleTime ⟨true, []⟩).1 =
      [Action.decideType, Action.openLockTruncate ".rsincr.lock",
       Action.lockAttempt, Action.registerCleanup, Action.removeLock] ∧
    (mainRun false (some ⟨none, none, none⟩) 3 15 none none none []
        sampleTime ⟨true, []⟩).1.head? = some Action.decideType ∧
    Action.lockAttempt ∈
      ((mainRun false (some ⟨none, none, none⟩) 3 15 none none none []
        sampleTime ⟨true, []⟩).1.drop 1) :=
  ⟨rfl, rfl, by decide⟩

/-- C7 (amended): in every invocation the first recorded event is the
backup-type decision, so the exclusive lock is acquired after the backup
type is determined (not before, as the claim stated) but still before any
job is attempted: on a failed lock attempt the run errors without starting
any job, and a job only ever starts after a successful lock.  The surfaced
lock error still distinguishes an already-held lock from other I/O errors:
the handler re-raises the original OSError, so (per acquire_lock, the
errno-level view of rsincr.py lines 42-50) the errno set by fcntl.lockf —
EAGAIN/EACCES for an already-held lock — reaches the caller intact, and
distinct errnos surface as distinct errors. -/
theorem c7_lock_gates_jobs (force_full_backup : Bool)
    (schedule : Option Schedule) (weekday monthday : Int)
    (lockfile_config bwlimit : Option String)
    (additional_rsync_opts : Option (List String))
    (backup_jobs : List (String × BackupJob)) (now : DateTime)
    (mw : MainWorld) :
    (mainRun force_full_backup schedule weekday monthday lockfile_config
        bwlimit additional_rsync_opts backup_jobs now mw).1.head? =
      some Action.decideType ∧
    (mw.lock_ok = false →
      (∀ n, Action.jobStart n ∉
        (mainRun force_full_backup schedule weekday monthday lockfile_config
          bwlimit additional_rsync_opts backup_jobs now mw).1) ∧
      ∃ e, (mainRun force_full_backup schedule weekday monthday
          lockfile_config bwlimit additional_rsync_opts backup_jobs now
          mw).2 = Except.error e) ∧
    (∀ n, Action.jobStart n ∈
        (mainRun force_full_backup schedule weekday monthday lockfile_config
          bwlimit additional_rsync_opts backup_jobs now mw).1 →
      mw.lock_ok = true) ∧
    (∀ lockfile errno, acquire_lock lockfile (some errno) =
      ([Action.openLockTruncate lockfile, Action.lockAttempt],
       Except.error (LockError.osError errno))) ∧
    (∀ lockfile errno1 errno2, errno1 ≠ errno2 →
      (acquire_lock lockfile (some errno1)).2 ≠
        (acquire_lock lockfile (some errno2)).2) := by
  refine ⟨?_, ?_, ?_, fun lockfile errno => rfl, fun lockfile e1 e2 hne => ?_⟩
  · rcases hdec : decide_backup_type force_full_backup schedule weekday
      monthday with e | bt
    · simp [mainRun, hdec]
    · cases hlk : mw.lock_ok <;> simp [mainRun, hdec, hlk]
  · intro hlk
    rcases hdec : decide_backup_type force_full_backup schedule weekday
      monthday with e | bt
    · exact ⟨fun n => by simp [mainRun, hdec], ⟨e, by simp [mainRun, hdec]⟩⟩
    · exact ⟨fun n => by simp [mainRun, hdec, hlk],
        ⟨"OSError: lock", by simp [mainRun, hdec, hlk]⟩⟩
  · intro n hn
    by_contra hlk
    simp only [Bool.not_eq_true] at hlk
    rcases hdec : decide_backup_type force_full_backup schedule weekday
      monthday with e | bt
    · simp [mainRun, hdec] at hn
    · simp [mainRun, hdec, hlk] at hn
  · simp [acquire_lock, hne]

/-- C7 witness: at a concrete configuration with the lock already held, the
decision is the first event, the configured job is never started, and the
re-raised lock error preserves the errno — EAGAIN (11, already locked) stays
distinct from EIO (5, an I/O failure). -/
theorem c7_lock_gates_jobs_witness :
    (mainRun false (some ⟨none, none, none⟩) 3 15 none none none
        [("job01", sampleJob)] sampleTime ⟨false, []⟩).1.head? =
      some Action.decideType ∧
    Action.jobStart "job01" ∉
      (mainRun false (some ⟨none, none, none⟩) 3 15 none none none
        [("job01", sampleJob)] sampleTime ⟨false, []⟩).1 ∧
    acquire_lock ".rsincr.lock" (some 11) =
      ([Action.openLockTruncate ".rsincr.lock", Action.lockAttempt],
       Except.error (LockError.osError 11)) ∧
    (acquire_lock ".rsincr.lock" (some 11)).2 ≠
      (acquire_lock ".rsincr.lock" (some 5)).2 :=
  ⟨(c7_lock_gates_jobs false (some ⟨none, none, none⟩) 3 15 none none none
      [("job01", sampleJob)] sampleTime ⟨false, []⟩).1,
   ((c7_lock_gates_jobs false (some ⟨none, none, none⟩) 3 15 none none none
      [("job01", sampleJob)] sampleTime ⟨false, []⟩).2.1 rfl).1 "job01",
   (c7_lock_gates_jobs false (some ⟨none, none, none⟩) 3 15 none none none
      [("job01", sampleJob)] sampleTime ⟨false, []⟩).2.2.2.1 ".rsincr.lock" 11,
   (c7_lock_gates_jobs false (some ⟨none, none, none⟩) 3 15 none none none
      [("job01", sampleJob)] sampleTime ⟨false, []⟩).2.2.2.2 ".rsincr.lock"
     11 5 (by decide)⟩

/-- C9: the lock-file cleanup is registered only after the exclusive lock
has been acquired: on a failed lock attempt the run has already opened the
lock file for writing (truncating it) but never registers the cleanup and
never removes the lock file; conversely, whenever the cleanup is registered
the lock attempt succeeded and the lock file is removed at exit. -/
theorem c9_cleanup_registered_after_lock (force_full_backup : Bool)
    (schedule : Option Schedule) (weekday monthday : Int)
    (lockfile_config bwlimit : Option String)
    (additional_rsync_opts : Option (List String))
    (backup_jobs : List (String × BackupJob)) (now : DateTime)
    (mw : MainWorld) (bt : String)
    (hdec : decide_backup_type force_full_backup schedule weekday monthday =
      Except.ok bt) :
    (mw.lock_ok = false →
      Action.openLockTruncate (lockfile_config.getD ".rsincr.lock") ∈
        (mainRun force_full_backup schedule weekday monthday lockfile_config
          bwlimit additional_rsync_opts backup_jobs now mw).1 ∧
      Action.registerCleanup ∉
        (mainRun force_full_backup schedule weekday monthday lockfile_config
          bwlimit additional_rsync_opts backup_jobs now mw).1 ∧
      Action.removeLock ∉
        (mainRun force_full_backup schedule weekday monthday lockfile_config
          bwlimit additional_rsync_opts backup_jobs now mw).1) ∧
    (Action.registerCleanup ∈
        (mainRun force_full_backup schedule weekday monthday lockfile_config
          bwlimit additional_rsync_opts backup_jobs now mw).1 →
      mw.lock_ok = true ∧
      Action.removeLock ∈
        (mainRun force_full_backup schedule weekday monthday lockfile_config
          bwlimit additional_rsync_opts backup_jobs now mw).1) := by
  cases hlk : mw.lock_ok
  · refine ⟨fun _ => ⟨?_, ?_, ?_⟩, fun hm => ?_⟩
    · simp [mainRun, hdec, hlk]
    · simp [mainRun, hdec, hlk]
    · simp [mainRun, hdec, hlk]
    · simp [mainRun, hdec, hlk] at hm
  · refine ⟨fun hc => by simp at hc, fun _ => ⟨rfl, ?_⟩⟩
    simp [mainRun, hdec, hlk]

/-- C9 witness: at a concrete configuration with the lock already held, the
truncating open happened but neither registration nor removal did. -/
theorem c9_cleanup_registered_after_lock_witness :
    Action.openLockTruncate ".rsincr.lock" ∈
      (mainRun false (some ⟨none, none, none⟩) 3 15 none none none []
        sampleTime ⟨false, []⟩).1 ∧
    Action.registerCleanup ∉
      (mainRun false (some ⟨none, none, none⟩) 3 15 none none none []
        sampleTime ⟨false, []⟩).1 ∧
    Action.removeLock ∉
      (mainRun false (some ⟨none, none, none⟩) 3 15 none none none []
        sampleTime ⟨false, []⟩).1 :=
  (c9_cleanup_registered_after_lock false (some ⟨none, none, none⟩) 3 15 none
    none none [] sampleTime ⟨false, []⟩ "incremental" rfl).1 rfl

end Rsincr
